import Mathlib

/-!
Shallow embedding of the session/task concurrency and memory-lifecycle
manager of apuslabs/wasi_nn_backend (src/wasi_nn_llama.cpp together with
the error enum of include/wasi_nn_llama.h), and theorems settling the
specification's claims about it.

Modelling conventions:
* machine integers are Nat/Int; unsigned 32-bit wraparound is written
  explicitly as `% 2 ^ 32` where the C code can wrap;
* C signed integer division (truncation toward zero) is Int.tdiv;
* std::chrono time points are Nat milliseconds;
* std::deque is List (front = head, push_back = append);
* std::unordered_map<graph_execution_context, SessionInfo> is an
  association list with pairwise-distinct keys;
* external inference-engine calls (load_model, decode, samplers, stat)
  are parameters of the functions that invoke them.
-/

namespace WasiNnBackend

/-- The wasi_nn_error enum of include/wasi_nn_llama.h.  Note that it has
no constructor named Unstable, ConcurrencyLimitExceeded or
ResourceExhausted; all generic failures map to runtime_error. -/
inductive WasiNnError where
  | success
  | invalid_argument
  | invalid_encoding
  | timeout
  | runtime_error
  | unsupported_operation
  | too_large
  | not_found
  | security
  | unknown
  | end_of_sequence
  | context_full
  | prompt_tool_long
  | model_not_found
  deriving DecidableEq, Repr

/-- wasi_nn_task_priority (LOW, NORMAL, HIGH, URGENT). -/
inductive TaskPriority where
  | low
  | normal
  | high
  | urgent
  deriving DecidableEq, Repr

/-- struct wasi_nn_task (fields relevant to queue behaviour; id is a C
int, -1 meaning unset; time points are Nat). -/
structure WasiNnTask where
  id : Int
  exec_ctx : Nat
  priority : TaskPriority
  created_at : Nat
  timeout_at : Nat
  prompt : String
  deriving DecidableEq, Repr

/-- struct wasi_nn_task_queue.  high_priority_queue holds URGENT tasks,
normal_priority_queue holds HIGH and NORMAL tasks, low_priority_queue
holds LOW tasks, exactly as the switch in enqueue_task distributes them.
The uint32 counters are kept as Nat; get_queue_status applies the
32-bit reduction the C arithmetic performs. -/
structure TaskQueueState where
  high_priority_queue : List WasiNnTask
  normal_priority_queue : List WasiNnTask
  low_priority_queue : List WasiNnTask
  max_queue_size : Nat
  current_size : Nat
  running : Bool
  next_task_id : Int
  tasks_queued : Nat
  tasks_completed : Nat
  tasks_timeout : Nat
  tasks_rejected : Nat
  deriving DecidableEq, Repr

/-- Initial field values of wasi_nn_task_queue. -/
def initial_task_queue : TaskQueueState :=
  { high_priority_queue := []
    normal_priority_queue := []
    low_priority_queue := []
    max_queue_size := 50
    current_size := 0
    running := true
    next_task_id := 1
    tasks_queued := 0
    tasks_completed := 0
    tasks_timeout := 0
    tasks_rejected := 0 }

/-- wasi_nn_task_queue::enqueue_task.  Returns the bool result and the
updated queue. -/
def enqueue_task (q : TaskQueueState) (task : WasiNnTask) : Bool × TaskQueueState :=
  if q.max_queue_size ≤ q.current_size then
    (false, { q with tasks_rejected := q.tasks_rejected + 1 })
  else
    let assign := task.id = -1
    let task := if assign then { task with id := q.next_task_id } else task
    let q := if assign then { q with next_task_id := q.next_task_id + 1 } else q
    let q :=
      match task.priority with
      | .urgent => { q with high_priority_queue := q.high_priority_queue ++ [task] }
      | .high => { q with normal_priority_queue := q.normal_priority_queue ++ [task] }
      | .normal => { q with normal_priority_queue := q.normal_priority_queue ++ [task] }
      | .low => { q with low_priority_queue := q.low_priority_queue ++ [task] }
    (true, { q with current_size := q.current_size + 1, tasks_queued := q.tasks_queued + 1 })

/-- The erase loop of wasi_nn_task_queue::cleanup_expired_tasks over one
deque: keeps the tasks with now ≤ timeout_at and counts the removals
(the C condition for expiry is now > timeout_at). -/
def cleanup_one_queue (now : Nat) : List WasiNnTask → List WasiNnTask × Nat
  | [] => ([], 0)
  | t :: rest =>
      let (kept, removed) := cleanup_one_queue now rest
      if t.timeout_at < now then (kept, removed + 1) else (t :: kept, removed)

/-- wasi_nn_task_queue::cleanup_expired_tasks: purges all three deques,
decrementing current_size and incrementing tasks_timeout once per
removed task. -/
def cleanup_expired_tasks (now : Nat) (q : TaskQueueState) : TaskQueueState :=
  let h := cleanup_one_queue now q.high_priority_queue
  let n := cleanup_one_queue now q.normal_priority_queue
  let l := cleanup_one_queue now q.low_priority_queue
  { q with
    high_priority_queue := h.1
    normal_priority_queue := n.1
    low_priority_queue := l.1
    current_size := q.current_size - (h.2 + n.2 + l.2)
    tasks_timeout := q.tasks_timeout + (h.2 + n.2 + l.2) }

/-- wasi_nn_task_queue::dequeue_task, after the condition-variable wait
has returned (blocking itself is not modelled): on a stopped queue it
returns none; otherwise it purges expired tasks and pops the front of
the highest non-empty tier. -/
def dequeue_task (now : Nat) (q : TaskQueueState) : Option WasiNnTask × TaskQueueState :=
  if q.running = false then (none, q)
  else
    let q := cleanup_expired_tasks now q
    match q.high_priority_queue with
    | t :: rest =>
        (some t, { q with high_priority_queue := rest, current_size := q.current_size - 1 })
    | [] =>
      match q.normal_priority_queue with
      | t :: rest =>
          (some t, { q with normal_priority_queue := rest, current_size := q.current_size - 1 })
      | [] =>
        match q.low_priority_queue with
        | t :: rest =>
            (some t, { q with low_priority_queue := rest, current_size := q.current_size - 1 })
        | [] => (none, q)

/-- The background task-processor loop body after a successful dequeue
(init_backend thread): takes the queue lock and increments
tasks_completed. -/
def mark_task_completed (q : TaskQueueState) : TaskQueueState :=
  { q with tasks_completed := q.tasks_completed + 1 }

/-- uint32 reduction. -/
def u32 (n : Nat) : Nat := n % 2 ^ 32

/-- uint32 subtraction a - b (a already reduced below 2^32), with the
wraparound of C unsigned arithmetic. -/
def u32_sub (a b : Nat) : Nat := (a + (2 ^ 32 - b % 2 ^ 32)) % 2 ^ 32

/-- wasi_nn_task_queue::get_queue_status: (queued, active, capacity)
with active = tasks_queued - tasks_completed - tasks_timeout -
tasks_rejected evaluated left to right in uint32 arithmetic. -/
def get_queue_status (q : TaskQueueState) : Nat × Nat × Nat :=
  (u32 q.current_size,
   u32_sub (u32_sub (u32_sub (u32 q.tasks_queued) q.tasks_completed) q.tasks_timeout)
     q.tasks_rejected,
   u32 q.max_queue_size)

/-- struct SessionInfo (chat_history abstracted to its length is not
needed by any claim, so it is omitted). -/
structure SessionInfo where
  session_id : String
  last_activity : Nat
  deriving DecidableEq, Repr

/-- common_params of the inference engine, modelled opaquely: the model
path plus an abstract tag standing for every other engine field
(sampling, gpu layers, ...).  Distinct tags model distinct parameter
records. -/
structure CommonParams where
  model_path : String
  rest : Nat
  deriving DecidableEq, Repr

/-- The fields of LlamaChatContext that the claims are about.
loaded_model models the engine model/context pointers of server_ctx
(none = nullptr, as after the pointer reset of safe_model_switch). -/
structure ChatCtx where
  sessions : List (Nat × SessionInfo)
  next_exec_ctx_id : Nat
  max_sessions : Nat
  idle_timeout_ms : Nat
  auto_cleanup_enabled : Bool
  max_concurrent : Nat
  active_sessions : Nat
  params_base : CommonParams
  backup_params : CommonParams
  loaded_model : Option CommonParams
  current_model_path : String
  current_model_version : String
  model_swapping_in_progress : Bool
  deriving DecidableEq, Repr

/-- auto_cleanup_sessions: no-op when auto_cleanup is disabled;
otherwise first erases every session idle longer than idle_timeout_ms,
then, if still at or above max_sessions, erases the oldest
(count - max_sessions + 1) sessions by last_activity.  The
unordered_map is modelled as a list, and erasing the sorted victims is
modelled as dropping the sorted prefix (the map has no observable
order; std::sort on ties is unstable, so any victim choice among equal
timestamps is a legal run of the C code and the model fixes one). -/
def auto_cleanup_sessions (now : Nat) (ctx : ChatCtx) : ChatCtx :=
  if ctx.auto_cleanup_enabled = false then ctx
  else
    let remaining := ctx.sessions.filter
      (fun s => !(ctx.idle_timeout_ms < now - s.2.last_activity))
    if ctx.max_sessions ≤ remaining.length then
      let sorted := remaining.mergeSort (fun a b => a.2.last_activity ≤ b.2.last_activity)
      let sessions_to_remove := remaining.length - ctx.max_sessions + 1
      { ctx with sessions := sorted.drop sessions_to_remove }
    else
      { ctx with sessions := remaining }

/-- sessions[new_exec_ctx] = info on the unordered_map: overwrite the
entry if the key exists, otherwise insert. -/
def map_insert (k : Nat) (v : SessionInfo) (m : List (Nat × SessionInfo)) :
    List (Nat × SessionInfo) :=
  if m.any (fun s => s.1 = k) then m.map (fun s => if s.1 = k then (k, v) else s)
  else m ++ [(k, v)]

/-- init_execution_context.  The null checks on the backend handle and
the engine model come first; then the concurrency limit check
(active_sessions + 1 > max_concurrent returns runtime_error before
anything is stored); then auto-cleanup and the session insertion.  The
engine collaborator steps (setup_threadpools, server_ctx.init, sampler
initialisation) are modelled as succeeding. -/
def init_execution_context (now : Nat) (ctx : ChatCtx) :
    WasiNnError × ChatCtx × Option Nat :=
  if ctx.loaded_model = none then (.invalid_argument, ctx, none)
  else if ctx.max_concurrent < ctx.active_sessions + 1 then
    (.runtime_error, ctx, none)
  else
    let ctx := auto_cleanup_sessions now ctx
    let new_exec_ctx := ctx.next_exec_ctx_id
    let info : SessionInfo :=
      { session_id := "session_" ++ toString new_exec_ctx, last_activity := now }
    (.success,
     { ctx with
        sessions := map_insert new_exec_ctx info ctx.sessions
        next_exec_ctx_id := ctx.next_exec_ctx_id + 1
        active_sessions := ctx.active_sessions + 1 },
     some new_exec_ctx)

/-- close_execution_context: erase the session if present (first entry
with the key, matching unordered_map::erase(iterator)) and decrement
active_sessions when positive; invalid_argument when the handle is
unknown.  The KV-cache auto-clear calls are engine collaborators. -/
def close_execution_context (ctx : ChatCtx) (exec_ctx : Nat) : WasiNnError × ChatCtx :=
  if ctx.sessions.any (fun s => s.1 = exec_ctx) then
    let erased := ctx.sessions.eraseP (fun s => s.1 = exec_ctx)
    (.success,
     { ctx with
        sessions := erased
        active_sessions :=
          if 0 < ctx.active_sessions then ctx.active_sessions - 1 else ctx.active_sessions })
  else (.invalid_argument, ctx)

/-- One public session-lifecycle call. -/
inductive SessionOp where
  | create (now : Nat)
  | close (exec_ctx : Nat)
  deriving DecidableEq, Repr

/-- Apply one session-lifecycle call to the backend state. -/
def apply_session_op (ctx : ChatCtx) : SessionOp → ChatCtx
  | .create now => (init_execution_context now ctx).2.1
  | .close e => (close_execution_context ctx e).2

/-- Run a sequence of session-lifecycle calls. -/
def run_session_ops (ctx : ChatCtx) (ops : List SessionOp) : ChatCtx :=
  ops.foldl apply_session_op ctx

/-- safe_model_switch, parameterised by the outcome of the engine's
server_context::load_model (loadOk) and by the stat()-derived version
fingerprint of the new model file (stat_version = none models a failed
stat call, which leaves current_model_version unchanged).  Config
parsing and merging are abstracted into the new_params argument;
wait_for_tasks_completion only logs its result;
cleanup_all_slots plus the pointer reset are modelled by clearing
loaded_model. -/
def safe_model_switch (loadOk : CommonParams → Bool) (stat_version : Option String)
    (ctx : ChatCtx) (new_params : CommonParams) : WasiNnError × ChatCtx :=
  if ctx.model_swapping_in_progress then (.runtime_error, ctx)
  else
    let ctx := { ctx with model_swapping_in_progress := true }
    let ctx := { ctx with backup_params := ctx.params_base }
    let ctx := { ctx with loaded_model := none }
    let ctx := { ctx with params_base := new_params }
    if loadOk new_params = false then
      if loadOk ctx.backup_params = false then
        (.runtime_error, { ctx with model_swapping_in_progress := false })
      else
        (.runtime_error,
         { ctx with
            loaded_model := some ctx.backup_params
            model_swapping_in_progress := false })
    else
      let version :=
        match stat_version with
        | some v => v
        | none => ctx.current_model_version
      (.success,
       { ctx with
          loaded_model := some new_params
          current_model_path := new_params.model_path
          current_model_version := version
          sessions := []
          next_exec_ctx_id := 1
          active_sessions := 0
          model_swapping_in_progress := false })

/-- llama_memory_seq_rm: remove the cache cells of the sequence whose
position lies in the interval from p0 inclusive to p1 exclusive.  The
KV cache of one sequence is modelled as the list of its cell
positions. -/
def seq_rm (p0 p1 : Int) (cache : List Int) : List Int :=
  cache.filter (fun p => !(p0 ≤ p ∧ p < p1))

/-- llama_memory_seq_add: add delta to the position of every cache cell
whose position lies in the interval from p0 inclusive to p1
exclusive. -/
def seq_add (p0 p1 delta : Int) (cache : List Int) : List Int :=
  cache.map (fun p => if p0 ≤ p ∧ p < p1 then p + delta else p)

/-- perform_context_shift.  n_past is the function's used-cell estimate
(the source computes it as the int cast of n_ctx * 0.8f; the claims
quantify over the estimate, so it is a parameter here).  n_keep and
n_discard_tokens are the int casts of the uint32 configuration fields.
C integer division is Int.tdiv; the dividend n_left is positive on the
branch where the division happens. -/
def perform_context_shift (context_shifting_enabled : Bool) (n_discard_tokens : Int)
    (n_past n_keep : Int) (cache : List Int) : WasiNnError × List Int :=
  if context_shifting_enabled = false then (.runtime_error, cache)
  else
    let n_left := n_past - n_keep
    if n_left ≤ 0 then (.success, cache)
    else
      let n_discard := if 0 < n_discard_tokens then n_discard_tokens else n_left.tdiv 2
      (.success,
       seq_add (n_keep + n_discard) n_past (-n_discard)
         (seq_rm n_keep (n_keep + n_discard) cache))

/-- clear_partial_kv_cache.  As in the source, each strategy computes
its interval from the window estimate n_past and calls
llama_memory_seq_rm only when its n_clear is positive; an unknown
strategy string returns invalid_argument, as does the function when
partial cache deletion is disabled. -/
def clear_partial_kv_cache (enable_partial_cache_deletion : Bool)
    (n_keep_tokens n_past : Int) (strategy : String) (cache : List Int) :
    WasiNnError × List Int :=
  if enable_partial_cache_deletion = false then (.invalid_argument, cache)
  else if strategy = "lru" then
    let n_clear := n_past.tdiv 4
    if 0 < n_clear then (.success, seq_rm 0 n_clear cache) else (.success, cache)
  else if strategy = "fifo" then
    let n_clear := n_past.tdiv 4
    if 0 < n_clear then (.success, seq_rm (n_past - n_clear) n_past cache)
    else (.success, cache)
  else if strategy = "smart" then
    let n_keep := n_keep_tokens
    let n_clear := (n_past - n_keep).tdiv 2
    if 0 < n_clear then
      let clear_start := n_keep + n_clear.tdiv 2
      (.success, seq_rm clear_start (clear_start + n_clear) cache)
    else (.success, cache)
  else (.invalid_argument, cache)

/-- The sampling fields of common_params that the validation block of
parse_config_to_params touches.  dry_base is a float in the source; the
values the claim is about (1.0, 1.75 and the parsed comparisons) are
exactly representable, so it is modelled as a rational. -/
structure SamplingParams where
  penalty_last_n : Int
  dry_penalty_last_n : Int
  dry_base : Rat
  deriving DecidableEq, Repr

/-- The slice of common_params that claim C8 is about. -/
structure ModelParams where
  n_ctx : Int
  sampling : SamplingParams
  deriving DecidableEq, Repr

/-- The defaults parse_config_to_params assigns before reading the
JSON: penalty_last_n = -1, dry_penalty_last_n = -1 (both sentinels to
be auto-adjusted), dry_base = 1.75, n_ctx = 2048. -/
def default_model_params : ModelParams :=
  { n_ctx := 2048
    sampling := { penalty_last_n := -1, dry_penalty_last_n := -1, dry_base := 1.75 } }

/-- The values cJSON extraction yields for the configuration keys the
claim is about (none = key absent, in which case cjson_get_value keeps
the previous value).  penalty_last_n and repeat_last_n are distinct
keys read in that order, the second overriding the first. -/
structure ParsedSamplingConfig where
  penalty_last_n : Option Int
  repeat_last_n : Option Int
  dry_penalty_last_n : Option Int
  dry_base : Option Rat
  deriving DecidableEq, Repr

/-- The slice of the parsed JSON document relevant to claim C8:
the model-section context size and the sampling section. -/
structure ParsedConfig where
  ctx_size : Option Int
  sampling : Option ParsedSamplingConfig
  deriving DecidableEq, Repr

/-- The assignment phase of parse_config_to_params: defaults, then the
cjson_get_value overrides in source order.  This is the state of params
when control reaches the critical-parameter validation block. -/
def apply_parsed_config (cfg : ParsedConfig) : ModelParams :=
  let p := default_model_params
  let p := { p with n_ctx := cfg.ctx_size.getD p.n_ctx }
  match cfg.sampling with
  | none => p
  | some s =>
      let pl := s.penalty_last_n.getD p.sampling.penalty_last_n
      let pl := s.repeat_last_n.getD pl
      { p with
          sampling :=
            { p.sampling with
                penalty_last_n := pl
                dry_penalty_last_n := s.dry_penalty_last_n.getD p.sampling.dry_penalty_last_n
                dry_base := s.dry_base.getD p.sampling.dry_base } }

/-- The critical-parameter validation block at the end of
parse_config_to_params: the < -1 checks abort the parse (early return,
keeping the params assigned so far), the -1 sentinels resolve to n_ctx,
and dry_base < 1.0 resets to 1.75. -/
def validate_params (p : ModelParams) : ModelParams :=
  if p.sampling.penalty_last_n < -1 then p
  else if p.sampling.dry_penalty_last_n < -1 then p
  else
    let p :=
      if p.sampling.penalty_last_n = -1 then
        { p with sampling := { p.sampling with penalty_last_n := p.n_ctx } }
      else p
    let p :=
      if p.sampling.dry_penalty_last_n = -1 then
        { p with sampling := { p.sampling with dry_penalty_last_n := p.n_ctx } }
      else p
    if p.sampling.dry_base < 1 then
      { p with sampling := { p.sampling with dry_base := 1.75 } }
    else p

/-- parse_config_to_params restricted to the fields of claim C8:
assignments from the JSON, then the validation block. -/
def parse_config_to_params (cfg : ParsedConfig) : ModelParams :=
  validate_params (apply_parsed_config cfg)

/-- The session lookup of run_inference_for_session_with_params:
sessions.find(exec_ctx) on the unordered_map. -/
def find_session (sessions : List (Nat × SessionInfo)) (exec_ctx : Nat) :
    Option SessionInfo :=
  (sessions.find? (fun s => s.1 = exec_ctx)).map (fun s => s.2)

/-- run_inference_for_session_with_params: returns the literal string
"Error: Invalid session" when the handle is not in the session map,
otherwise the engine-generated response (the whole chat-template /
decode path is the external engine, a parameter here). -/
def run_inference_for_session_with_params (engine : SessionInfo → String → String)
    (ctx : ChatCtx) (exec_ctx : Nat) (user_input : String) : String :=
  match find_session ctx.sessions exec_ctx with
  | none => "Error: Invalid session"
  | some s => engine s user_input

/-- run_inference: null backend/engine-context and null prompt data
return invalid_argument; otherwise the helper's response string is
copied into the output tensor and the function returns success.  The
returned pair is (error code, output tensor content). -/
def run_inference (engine : SessionInfo → String → String) (ctx : ChatCtx)
    (exec_ctx : Nat) (prompt_text : Option String) : WasiNnError × Option String :=
  if ctx.loaded_model = none then (.invalid_argument, none)
  else
    match prompt_text with
    | none => (.invalid_argument, none)
    | some input =>
        (.success, some (run_inference_for_session_with_params engine ctx exec_ctx input))

/-! Concrete states used by the closed theorems below. -/

/-- A task far from its timeout. -/
def demo_task1 : WasiNnTask :=
  { id := -1, exec_ctx := 1, priority := .normal, created_at := 0,
    timeout_at := 1000000000, prompt := "a" }

/-- A second such task. -/
def demo_task2 : WasiNnTask :=
  { demo_task1 with exec_ctx := 2, prompt := "b" }

/-- Queue scenario for the statistics wraparound: capacity 1, one
accepted task, one rejected enqueue, the accepted task dequeued and
marked completed. -/
def wrap_scenario_queue : TaskQueueState :=
  mark_task_completed
    (dequeue_task 0
        (enqueue_task
            (enqueue_task { initial_task_queue with max_queue_size := 1 } demo_task1).2
            demo_task2).2).2

/-- A loaded parameter record. -/
def demo_params : CommonParams := { model_path := "/models/a.gguf", rest := 0 }

/-- A different parameter record (the switch target). -/
def demo_new_params : CommonParams := { model_path := "/models/b.gguf", rest := 1 }

/-- A backend context with the LlamaChatContext constructor defaults
(max_sessions 100, idle_timeout_ms 300000, auto_cleanup on,
max_concurrent 8) and a loaded model. -/
def demo_ctx : ChatCtx :=
  { sessions := []
    next_exec_ctx_id := 1
    max_sessions := 100
    idle_timeout_ms := 300000
    auto_cleanup_enabled := true
    max_concurrent := 8
    active_sessions := 0
    params_base := demo_params
    backup_params := demo_params
    loaded_model := some demo_params
    current_model_path := "/models/a.gguf"
    current_model_version := "size_100_mtime_5"
    model_swapping_in_progress := false }

/-- The same backend at its concurrency limit. -/
def demo_full_ctx : ChatCtx := { demo_ctx with max_concurrent := 1, active_sessions := 1 }

/-- The same backend with auto-cleanup disabled, max_sessions 1 and
max_concurrent 2. -/
def demo_nocleanup_ctx : ChatCtx :=
  { demo_ctx with auto_cleanup_enabled := false, max_sessions := 1, max_concurrent := 2 }

/-- A parsed config whose sampling.penalty_last_n is -5 (below the -1
floor) and whose dry_base is 1/2. -/
def c8_bad_cfg : ParsedConfig :=
  { ctx_size := none
    sampling := some
      { penalty_last_n := some (-5)
        repeat_last_n := none
        dry_penalty_last_n := none
        dry_base := some (1 / 2) } }

/-- A parsed config with valid penalty windows and a dry_base below
1.0. -/
def c8_low_dry_cfg : ParsedConfig :=
  { ctx_size := none
    sampling := some
      { penalty_last_n := some 5
        repeat_last_n := none
        dry_penalty_last_n := some 7
        dry_base := some (1 / 2) } }

end WasiNnBackend

namespace WasiNnBackend

/-- The cleanup erase loop keeps exactly the unexpired tasks in order
and counts exactly the expired ones. -/
theorem cleanup_one_queue_eq (now : Nat) (l : List WasiNnTask) :
    cleanup_one_queue now l =
      (l.filter (fun t => !(t.timeout_at < now)),
       (l.filter (fun t => t.timeout_at < now)).length) := by
  induction l with
  | nil => rfl
  | cons t rest ih =>
      by_cases h : t.timeout_at < now <;>
        simp [cleanup_one_queue, ih, List.filter_cons, h]

/-- C5: enqueue_task on a full queue returns false, increments only the
rejected counter and leaves the tiers, current_size, the enqueued
counter and the id counter unchanged; below capacity it returns true,
appends the task (with the next monotonically increasing id assigned
when the task's id is the -1 sentinel) at the back of the tier matching
its priority, leaves the other tiers unchanged, and increments
current_size and the enqueued counter. -/
theorem c5_enqueue_full_rejects_else_appends (q : TaskQueueState) (t : WasiNnTask) :
    (q.max_queue_size ≤ q.current_size →
      (enqueue_task q t).1 = false ∧
      (enqueue_task q t).2.tasks_rejected = q.tasks_rejected + 1 ∧
      (enqueue_task q t).2.high_priority_queue = q.high_priority_queue ∧
      (enqueue_task q t).2.normal_priority_queue = q.normal_priority_queue ∧
      (enqueue_task q t).2.low_priority_queue = q.low_priority_queue ∧
      (enqueue_task q t).2.current_size = q.current_size ∧
      (enqueue_task q t).2.tasks_queued = q.tasks_queued ∧
      (enqueue_task q t).2.next_task_id = q.next_task_id) ∧
    (q.current_size < q.max_queue_size →
      (enqueue_task q t).1 = true ∧
      (enqueue_task q t).2.high_priority_queue =
        (if t.priority = .urgent then
          q.high_priority_queue ++ [if t.id = -1 then { t with id := q.next_task_id } else t]
         else q.high_priority_queue) ∧
      (enqueue_task q t).2.normal_priority_queue =
        (if t.priority = .high ∨ t.priority = .normal then
          q.normal_priority_queue ++ [if t.id = -1 then { t with id := q.next_task_id } else t]
         else q.normal_priority_queue) ∧
      (enqueue_task q t).2.low_priority_queue =
        (if t.priority = .low then
          q.low_priority_queue ++ [if t.id = -1 then { t with id := q.next_task_id } else t]
         else q.low_priority_queue) ∧
      (enqueue_task q t).2.current_size = q.current_size + 1 ∧
      (enqueue_task q t).2.tasks_queued = q.tasks_queued + 1 ∧
      (enqueue_task q t).2.tasks_rejected = q.tasks_rejected ∧
      (t.id = -1 → (enqueue_task q t).2.next_task_id = q.next_task_id + 1) ∧
      (t.id ≠ -1 → (enqueue_task q t).2.next_task_id = q.next_task_id)) := by
  constructor
  · intro h
    simp [enqueue_task, h]
  · intro h
    have h' : ¬ q.max_queue_size ≤ q.current_size := Nat.not_le.2 h
    by_cases ht : t.id = -1 <;>
      cases hp : t.priority <;>
        simp [enqueue_task, h', ht, hp]

/-- Witness for c5_enqueue_full_rejects_else_appends at a full queue of
capacity 0 and at the initial queue. -/
theorem c5_enqueue_witness :
    (enqueue_task { initial_task_queue with max_queue_size := 0 } demo_task1).1 = false ∧
    (enqueue_task initial_task_queue demo_task1).1 = true ∧
    (enqueue_task initial_task_queue demo_task1).2.normal_priority_queue =
      [{ demo_task1 with id := 1 }] := by
  refine ⟨?_, ?_, ?_⟩
  · exact ((c5_enqueue_full_rejects_else_appends
      { initial_task_queue with max_queue_size := 0 } demo_task1).1 (by decide)).1
  · exact ((c5_enqueue_full_rejects_else_appends initial_task_queue demo_task1).2
      (by decide)).1
  · have h := ((c5_enqueue_full_rejects_else_appends initial_task_queue demo_task1).2
      (by decide)).2.2.1
    simpa using h

/-- C4: dequeue_task on a running queue first removes every expired
task (timeout_at strictly in the past) from all three tiers,
incrementing tasks_timeout and decrementing current_size once per
removal, then delivers the front of the urgent tier if non-empty, else
of the merged high/normal tier, else of the low tier (strict FIFO:
always the head of the purged tier), and never delivers an expired
task. -/
theorem c4_dequeue_purges_then_serves_priority_fifo (now : Nat) (q : TaskQueueState)
    (hrun : q.running = true) :
    (dequeue_task now q).1 =
      ((q.high_priority_queue.filter (fun t => !(t.timeout_at < now))).head?.or
        (((q.normal_priority_queue.filter (fun t => !(t.timeout_at < now))).head?).or
          ((q.low_priority_queue.filter (fun t => !(t.timeout_at < now))).head?))) ∧
    (∀ t, (dequeue_task now q).1 = some t → ¬ (t.timeout_at < now)) ∧
    (dequeue_task now q).2.tasks_timeout =
      q.tasks_timeout +
        ((q.high_priority_queue.filter (fun t => t.timeout_at < now)).length +
         (q.normal_priority_queue.filter (fun t => t.timeout_at < now)).length +
         (q.low_priority_queue.filter (fun t => t.timeout_at < now)).length) ∧
    (dequeue_task now q).2.current_size =
      q.current_size -
        ((q.high_priority_queue.filter (fun t => t.timeout_at < now)).length +
         (q.normal_priority_queue.filter (fun t => t.timeout_at < now)).length +
         (q.low_priority_queue.filter (fun t => t.timeout_at < now)).length) -
        (if (dequeue_task now q).1.isSome then 1 else 0) ∧
    (dequeue_task now q).2.high_priority_queue =
      (q.high_priority_queue.filter (fun t => !(t.timeout_at < now))).tail ∧
    (dequeue_task now q).2.normal_priority_queue =
      (if q.high_priority_queue.filter (fun t => !(t.timeout_at < now)) = [] then
        (q.normal_priority_queue.filter (fun t => !(t.timeout_at < now))).tail
       else q.normal_priority_queue.filter (fun t => !(t.timeout_at < now))) ∧
    (dequeue_task now q).2.low_priority_queue =
      (if q.high_priority_queue.filter (fun t => !(t.timeout_at < now)) = [] ∧
          q.normal_priority_queue.filter (fun t => !(t.timeout_at < now)) = [] then
        (q.low_priority_queue.filter (fun t => !(t.timeout_at < now))).tail
       else q.low_priority_queue.filter (fun t => !(t.timeout_at < now))) := by
  have hnr : ¬ q.running = false := by simp [hrun]
  rcases hH : q.high_priority_queue.filter (fun t => !(t.timeout_at < now)) with _ | ⟨th, restH⟩
  · rcases hN : q.normal_priority_queue.filter (fun t => !(t.timeout_at < now)) with _ | ⟨tn, restN⟩
    · rcases hL : q.low_priority_queue.filter (fun t => !(t.timeout_at < now)) with _ | ⟨tl, restL⟩
      · simp [dequeue_task, hnr, cleanup_expired_tasks, cleanup_one_queue_eq, hH, hN, hL]
      · refine ⟨?_, ?_, ?_, ?_, ?_, ?_, ?_⟩ <;>
          simp [dequeue_task, hnr, cleanup_expired_tasks, cleanup_one_queue_eq, hH, hN, hL]
        have : tl ∈ q.low_priority_queue.filter (fun t => !(t.timeout_at < now)) := by
          rw [hL]; exact List.mem_cons_self _ _
        have hlive := List.of_mem_filter this
        simpa using hlive
    · refine ⟨?_, ?_, ?_, ?_, ?_, ?_, ?_⟩ <;>
        simp [dequeue_task, hnr, cleanup_expired_tasks, cleanup_one_queue_eq, hH, hN]
      have : tn ∈ q.normal_priority_queue.filter (fun t => !(t.timeout_at < now)) := by
        rw [hN]; exact List.mem_cons_self _ _
      have hlive := List.of_mem_filter this
      simpa using hlive
  · refine ⟨?_, ?_, ?_, ?_, ?_, ?_, ?_⟩ <;>
      simp [dequeue_task, hnr, cleanup_expired_tasks, cleanup_one_queue_eq, hH]
    have : th ∈ q.high_priority_queue.filter (fun t => !(t.timeout_at < now)) := by
      rw [hH]; exact List.mem_cons_self _ _
    have hlive := List.of_mem_filter this
    simpa using hlive

/-- Witness for c4_dequeue_purges_then_serves_priority_fifo: a queue
with an expired urgent task, a live urgent task and a live normal task
at time 10 delivers the live urgent task and purges the expired one. -/
theorem c4_dequeue_witness :
    ({ initial_task_queue with
        high_priority_queue :=
          [{ demo_task1 with priority := .urgent, timeout_at := 5 },
           { demo_task2 with priority := .urgent, timeout_at := 20 }]
        normal_priority_queue := [{ demo_task1 with timeout_at := 30 }]
        current_size := 3 } : TaskQueueState).running = true ∧
    (dequeue_task 10
        { initial_task_queue with
            high_priority_queue :=
              [{ demo_task1 with priority := .urgent, timeout_at := 5 },
               { demo_task2 with priority := .urgent, timeout_at := 20 }]
            normal_priority_queue := [{ demo_task1 with timeout_at := 30 }]
            current_size := 3 }).1 =
      some { demo_task2 with priority := .urgent, timeout_at := 20 } ∧
    (dequeue_task 10
        { initial_task_queue with
            high_priority_queue :=
              [{ demo_task1 with priority := .urgent, timeout_at := 5 },
               { demo_task2 with priority := .urgent, timeout_at := 20 }]
            normal_priority_queue := [{ demo_task1 with timeout_at := 30 }]
            current_size := 3 }).2.tasks_timeout = 1 := by
  have h := c4_dequeue_purges_then_serves_priority_fifo 10
    { initial_task_queue with
        high_priority_queue :=
          [{ demo_task1 with priority := .urgent, timeout_at := 5 },
           { demo_task2 with priority := .urgent, timeout_at := 20 }]
        normal_priority_queue := [{ demo_task1 with timeout_at := 30 }]
        current_size := 3 } (by decide)
  refine ⟨by decide, ?_, ?_⟩
  · rw [h.1]; decide
  · rw [h.2.2.1]; decide

/-- C10: get_queue_status computes active in uint32 arithmetic as
tasks_queued - tasks_completed - tasks_timeout - tasks_rejected, a
rejected enqueue increments tasks_rejected but not tasks_queued, and in
the capacity-1 scenario (one accepted task that completed, one rejected
enqueue) the reported active count wraps to 2^32 - 1 instead of 0. -/
theorem c10_queue_status_active_wraps :
    (enqueue_task
        (enqueue_task { initial_task_queue with max_queue_size := 1 } demo_task1).2
        demo_task2).1 = false ∧
    (enqueue_task
        (enqueue_task { initial_task_queue with max_queue_size := 1 } demo_task1).2
        demo_task2).2.tasks_rejected = 1 ∧
    (enqueue_task
        (enqueue_task { initial_task_queue with max_queue_size := 1 } demo_task1).2
        demo_task2).2.tasks_queued = 1 ∧
    wrap_scenario_queue.tasks_completed = 1 ∧
    wrap_scenario_queue.tasks_timeout = 0 ∧
    get_queue_status wrap_scenario_queue = (0, 2 ^ 32 - 1, 1) := by
  decide

/-- auto_cleanup_sessions only rewrites the session map: every other
field of the context is unchanged. -/
theorem auto_cleanup_sessions_fields (now : Nat) (ctx : ChatCtx) :
    (auto_cleanup_sessions now ctx).active_sessions = ctx.active_sessions ∧
    (auto_cleanup_sessions now ctx).max_concurrent = ctx.max_concurrent ∧
    (auto_cleanup_sessions now ctx).max_sessions = ctx.max_sessions ∧
    (auto_cleanup_sessions now ctx).auto_cleanup_enabled = ctx.auto_cleanup_enabled ∧
    (auto_cleanup_sessions now ctx).loaded_model = ctx.loaded_model ∧
    (auto_cleanup_sessions now ctx).next_exec_ctx_id = ctx.next_exec_ctx_id := by
  simp only [auto_cleanup_sessions]
  split_ifs <;> simp

/-- With auto-cleanup enabled and max_sessions positive, the sweep
leaves at most max_sessions - 1 stored sessions. -/
theorem auto_cleanup_sessions_length (now : Nat) (ctx : ChatCtx)
    (hen : ctx.auto_cleanup_enabled = true) (hms : 1 ≤ ctx.max_sessions) :
    (auto_cleanup_sessions now ctx).sessions.length ≤ ctx.max_sessions - 1 := by
  unfold auto_cleanup_sessions
  rw [if_neg (by simp [hen])]
  set remaining :=
    ctx.sessions.filter (fun s => !(ctx.idle_timeout_ms < now - s.2.last_activity)) with hrem
  by_cases hge : ctx.max_sessions ≤ remaining.length
  · rw [if_pos hge]
    simp only [List.length_drop, List.length_mergeSort]
    omega
  · rw [if_neg hge]
    simp only []
    omega

/-- map insertion grows the session map by at most one entry. -/
theorem map_insert_length (k : Nat) (v : SessionInfo) (m : List (Nat × SessionInfo)) :
    (map_insert k v m).length ≤ m.length + 1 := by
  unfold map_insert
  split_ifs <;> simp

/-- Neither session-lifecycle call changes the configured limits or the
auto-cleanup flag. -/
theorem apply_session_op_limits (ctx : ChatCtx) (op : SessionOp) :
    (apply_session_op ctx op).max_concurrent = ctx.max_concurrent ∧
    (apply_session_op ctx op).max_sessions = ctx.max_sessions ∧
    (apply_session_op ctx op).auto_cleanup_enabled = ctx.auto_cleanup_enabled := by
  cases op with
  | create now =>
      simp only [apply_session_op, init_execution_context]
      split_ifs <;>
        simp [(auto_cleanup_sessions_fields now ctx).2.1,
          (auto_cleanup_sessions_fields now ctx).2.2.1,
          (auto_cleanup_sessions_fields now ctx).2.2.2.1]
  | close e =>
      simp only [apply_session_op, close_execution_context]
      split_ifs <;> simp

/-- One session-lifecycle call preserves the active-session cap. -/
theorem apply_session_op_cap (ctx : ChatCtx) (op : SessionOp)
    (h : ctx.active_sessions ≤ ctx.max_concurrent) :
    (apply_session_op ctx op).active_sessions ≤ (apply_session_op ctx op).max_concurrent := by
  cases op with
  | create now =>
      simp only [apply_session_op, init_execution_context]
      split_ifs with h1 h2
      · exact h
      · exact h
      · simp [(auto_cleanup_sessions_fields now ctx).1,
          (auto_cleanup_sessions_fields now ctx).2.1]
        omega
  | close e =>
      simp only [apply_session_op, close_execution_context]
      split_ifs <;> simp <;> omega

/-- One session-lifecycle call preserves the stored-session bound when
auto-cleanup is enabled and max_sessions is positive. -/
theorem apply_session_op_stored_bound (ctx : ChatCtx) (op : SessionOp)
    (hen : ctx.auto_cleanup_enabled = true) (hms : 1 ≤ ctx.max_sessions)
    (h : ctx.sessions.length ≤ ctx.max_sessions) :
    (apply_session_op ctx op).sessions.length ≤ ctx.max_sessions := by
  cases op with
  | create now =>
      simp only [apply_session_op, init_execution_context]
      split_ifs with h1 h2
      · exact h
      · exact h
      · simp only []
        calc (map_insert (auto_cleanup_sessions now ctx).next_exec_ctx_id _
                (auto_cleanup_sessions now ctx).sessions).length
            ≤ (auto_cleanup_sessions now ctx).sessions.length + 1 := map_insert_length _ _ _
          _ ≤ (ctx.max_sessions - 1) + 1 := by
                have := auto_cleanup_sessions_length now ctx hen hms
                omega
          _ = ctx.max_sessions := by omega
  | close e =>
      simp only [apply_session_op, close_execution_context]
      split_ifs with h1 h2
      · exact le_trans (List.length_eraseP_le ctx.sessions) h
      · exact le_trans (List.length_eraseP_le ctx.sessions) h
      · exact h

/-- C2 (amended): a creation attempt when active_sessions + 1 exceeds
max_concurrent fails with the generic runtime_error code (the
wasi_nn_error enum has no ConcurrencyLimitExceeded or ResourceExhausted
code) and stores nothing; and over every sequence of creation and close
calls the active-session count never exceeds max_concurrent. -/
theorem c2_create_rejected_at_cap_with_runtime_error (ctx : ChatCtx) (now : Nat)
    (ops : List SessionOp) :
    (∀ m : CommonParams, ctx.loaded_model = some m →
      ctx.max_concurrent < ctx.active_sessions + 1 →
      init_execution_context now ctx = (.runtime_error, ctx, none)) ∧
    (ctx.active_sessions ≤ ctx.max_concurrent →
      (run_session_ops ctx ops).active_sessions ≤ (run_session_ops ctx ops).max_concurrent) := by
  constructor
  · intro m hm hcap
    simp [init_execution_context, hm, hcap]
  · intro h
    induction ops generalizing ctx with
    | nil => exact h
    | cons op rest ih =>
        exact ih (apply_session_op ctx op) (apply_session_op_cap ctx op h)

/-- Witness for c2_create_rejected_at_cap_with_runtime_error: the
saturated demo context rejects with runtime_error, and two creations on
the fresh demo context keep the active count within max_concurrent. -/
theorem c2_create_rejected_witness :
    init_execution_context 0 demo_full_ctx = (.runtime_error, demo_full_ctx, none) ∧
    (run_session_ops demo_ctx [.create 0, .create 0]).active_sessions ≤
      (run_session_ops demo_ctx [.create 0, .create 0]).max_concurrent := by
  constructor
  · exact (c2_create_rejected_at_cap_with_runtime_error demo_full_ctx 0 []).1
      demo_params (by decide) (by decide)
  · exact (c2_create_rejected_at_cap_with_runtime_error demo_ctx 0
      [.create 0, .create 0]).2 (by decide)

/-- C2 counterexample to the claimed error code: the concurrency-limit
rejection returns runtime_error, the very code the backend also returns
for a generic engine failure such as a failed model switch, so the
rejection code is not a dedicated ConcurrencyLimitExceeded value (the
wasi_nn_error enum defines no such code). -/
theorem c2_rejection_code_not_distinct :
    (init_execution_context 0 demo_full_ctx).1 = WasiNnError.runtime_error ∧
    (safe_model_switch (fun _ => false) none demo_ctx demo_new_params).1 =
      WasiNnError.runtime_error := by
  decide

/-- C3 counterexample: with auto_cleanup disabled, max_sessions = 1 and
max_concurrent = 2, two creations both succeed and leave two stored
sessions, exceeding max_sessions — no creation is rejected on the
session-count ceiling. -/
theorem c3_stored_sessions_exceed_max_sessions :
    demo_nocleanup_ctx.auto_cleanup_enabled = false ∧
    demo_nocleanup_ctx.max_sessions = 1 ∧
    (run_session_ops demo_nocleanup_ctx [.create 0, .create 0]).sessions.length = 2 := by
  decide

/-- C3 (amended): with auto-cleanup enabled and max_sessions positive,
the stored-session count never exceeds max_sessions over any sequence
of creations and closes (each creation first evicts down to
max_sessions - 1 before storing); with auto-cleanup disabled the code
never rejects a creation on max_sessions, and the stored count is
bounded only by the max_concurrent admission gate. -/
theorem c3_stored_bound_only_with_auto_cleanup (ctx : ChatCtx) (ops : List SessionOp)
    (hen : ctx.auto_cleanup_enabled = true) (hms : 1 ≤ ctx.max_sessions)
    (h : ctx.sessions.length ≤ ctx.max_sessions) :
    (run_session_ops ctx ops).sessions.length ≤ (run_session_ops ctx ops).max_sessions := by
  induction ops generalizing ctx with
  | nil => simpa [run_session_ops] using h
  | cons op rest ih =>
      have hlim := apply_session_op_limits ctx op
      exact ih (apply_session_op ctx op)
        (by rw [hlim.2.2, hen])
        (by rw [hlim.2.1]; exact hms)
        (by rw [hlim.2.1]; exact apply_session_op_stored_bound ctx op hen hms h)

/-- Witness for c3_stored_bound_only_with_auto_cleanup: on the fresh
demo context, three creations keep the stored count within
max_sessions. -/
theorem c3_stored_bound_witness :
    (run_session_ops demo_ctx [.create 0, .create 0, .create 0]).sessions.length ≤
      (run_session_ops demo_ctx [.create 0, .create 0, .create 0]).max_sessions := by
  exact c3_stored_bound_only_with_auto_cleanup demo_ctx [.create 0, .create 0, .create 0]
    (by decide) (by decide) (by decide)

/-- C1 (amended): with a switch not already in progress, if the load of
the new model fails then safe_model_switch returns runtime_error and
leaves the model path and version fingerprint at their pre-switch
values; if the restore load succeeds the backed-up params are loaded
again, and if the restore load also fails no model is left loaded, the
function still returns the same runtime_error code, and every later
inference call fails (there is no distinct Unstable code — the
unstable state is only logged). -/
theorem c1_switch_failure_restores_and_returns_runtime_error
    (loadOk : CommonParams → Bool) (sv : Option String) (ctx : ChatCtx)
    (new_params : CommonParams)
    (hsw : ctx.model_swapping_in_progress = false)
    (hfail : loadOk new_params = false) :
    (safe_model_switch loadOk sv ctx new_params).1 = WasiNnError.runtime_error ∧
    (safe_model_switch loadOk sv ctx new_params).2.current_model_path =
      ctx.current_model_path ∧
    (safe_model_switch loadOk sv ctx new_params).2.current_model_version =
      ctx.current_model_version ∧
    (loadOk ctx.params_base = true →
      (safe_model_switch loadOk sv ctx new_params).2.loaded_model = some ctx.params_base) ∧
    (loadOk ctx.params_base = false →
      (safe_model_switch loadOk sv ctx new_params).2.loaded_model = none ∧
      ∀ (engine : SessionInfo → String → String) (e : Nat) (prompt : Option String),
        run_inference engine (safe_model_switch loadOk sv ctx new_params).2 e prompt =
          (.invalid_argument, none)) := by
  by_cases hb : loadOk ctx.params_base = true
  · simp [safe_model_switch, hsw, hfail, hb]
  · simp only [Bool.not_eq_true] at hb
    refine ⟨?_, ?_, ?_, ?_, ?_⟩ <;>
      simp [safe_model_switch, hsw, hfail, hb]
    intro engine e prompt
    cases prompt <;> simp [run_inference, safe_model_switch, hsw, hfail, hb]

/-- Witness for c1_switch_failure_restores_and_returns_runtime_error:
the demo backend with a load routine that only succeeds on the old
params returns runtime_error, keeps the pre-switch path and reloads the
backup. -/
theorem c1_switch_failure_witness :
    demo_ctx.model_swapping_in_progress = false ∧
    (fun p => p == demo_params) demo_new_params = false ∧
    (safe_model_switch (fun p => p == demo_params) none demo_ctx demo_new_params).1 =
      WasiNnError.runtime_error ∧
    (safe_model_switch (fun p => p == demo_params) none demo_ctx demo_new_params).2.current_model_path =
      demo_ctx.current_model_path ∧
    (safe_model_switch (fun p => p == demo_params) none demo_ctx demo_new_params).2.loaded_model =
      some demo_params := by
  have h := c1_switch_failure_restores_and_returns_runtime_error
    (fun p => p == demo_params) none demo_ctx demo_new_params (by decide) (by decide)
  exact ⟨by decide, by decide, h.1, h.2.1, h.2.2.2.1 (by decide)⟩

/-- C1 counterexample: when both the new load and the restore load
fail, safe_model_switch returns runtime_error — exactly the code of the
single-failure case, not a distinct Unstable code (the wasi_nn_error
enum defines none), leaving no model loaded. -/
theorem c1_double_failure_code_not_distinct :
    (safe_model_switch (fun _ => false) none demo_ctx demo_new_params).1 =
      WasiNnError.runtime_error ∧
    (safe_model_switch (fun p => p == demo_params) none demo_ctx demo_new_params).1 =
      WasiNnError.runtime_error ∧
    (safe_model_switch (fun _ => false) none demo_ctx demo_new_params).2.loaded_model =
      none := by
  decide

/-- Removing over the interval from p0 to p1 removes per-element
exactly the positions inside it, so an empty interval removes
nothing. -/
theorem seq_rm_of_le (p0 p1 : Int) (h : p1 ≤ p0) (cache : List Int) :
    seq_rm p0 p1 cache = cache := by
  rw [seq_rm, List.filter_eq_self]
  intro a _
  simp only [Bool.not_eq_eq_eq_not, Bool.not_true, decide_eq_false_iff_not]
  omega

/-- The remove-then-shift pair of llama_memory_seq_rm and
llama_memory_seq_add issued by perform_context_shift acts on each cache
position as one combined map: positions in the discard window vanish,
positions between the window and n_past move left by n_discard, all
other positions are untouched. -/
theorem seq_rm_then_add_eq (n_keep n_discard n_past : Int) (cache : List Int) :
    seq_add (n_keep + n_discard) n_past (-n_discard)
        (seq_rm n_keep (n_keep + n_discard) cache) =
      cache.filterMap (fun p =>
        if n_keep ≤ p ∧ p < n_keep + n_discard then none
        else if n_keep + n_discard ≤ p ∧ p < n_past then some (p - n_discard)
        else some p) := by
  induction cache with
  | nil => rfl
  | cons p rest ih =>
      by_cases h1 : n_keep ≤ p ∧ p < n_keep + n_discard
      · simpa [seq_rm, seq_add, List.filter_cons, List.filterMap_cons, h1] using ih
      · have h1' : p < n_keep ∨ n_keep + n_discard ≤ p := by omega
        by_cases h2 : n_keep + n_discard ≤ p ∧ p < n_past
        · simpa [seq_rm, seq_add, List.filter_cons, List.filterMap_cons, h1, h1', h2,
            sub_eq_add_neg] using ih
        · simpa [seq_rm, seq_add, List.filter_cons, List.filterMap_cons, h1, h1', h2]
            using ih

/-- C6: perform_context_shift with n_left = n_past - n_keep ≤ 0
returns success and leaves the cache unchanged; with n_left > 0 it
discards exactly n_discard positions — the configured n_discard_tokens
when positive, otherwise n_left / 2 with truncating division — removing
the cache entries in the window from n_keep to n_keep + n_discard and
shifting the entries from n_keep + n_discard up to n_past left by
n_discard. -/
theorem c6_context_shift_discards_and_shifts
    (n_discard_tokens n_past n_keep : Int) (cache : List Int) :
    (n_past - n_keep ≤ 0 →
      perform_context_shift true n_discard_tokens n_past n_keep cache =
        (.success, cache)) ∧
    (0 < n_past - n_keep →
      perform_context_shift true n_discard_tokens n_past n_keep cache =
        (.success,
         let n_discard :=
           if 0 < n_discard_tokens then n_discard_tokens else (n_past - n_keep).tdiv 2
         cache.filterMap (fun p =>
           if n_keep ≤ p ∧ p < n_keep + n_discard then none
           else if n_keep + n_discard ≤ p ∧ p < n_past then some (p - n_discard)
           else some p))) := by
  constructor
  · intro h
    simp [perform_context_shift, h]
  · intro h
    have h' : ¬ n_past - n_keep ≤ 0 := by omega
    simp only [perform_context_shift, Bool.true_eq_false, if_false, h', if_neg h']
    rw [seq_rm_then_add_eq]

/-- Witness for c6_context_shift_discards_and_shifts: the no-op branch
at n_past = n_keep, and the shift branch with automatic n_discard =
(6 - 2) / 2 = 2 on cache positions 0..5, which discards 2 and 3 and
shifts 4 and 5 down to 2 and 3. -/
theorem c6_context_shift_witness :
    (6 : Int) - 6 ≤ 0 ∧
    perform_context_shift true 0 6 6 [0, 1, 2] = (.success, [0, 1, 2]) ∧
    (0 : Int) < 6 - 2 ∧
    perform_context_shift true 0 6 2 [0, 1, 2, 3, 4, 5] = (.success, [0, 1, 2, 3]) := by
  refine ⟨by decide, ?_, by decide, ?_⟩
  · exact (c6_context_shift_discards_and_shifts 0 6 6 [0, 1, 2]).1 (by decide)
  · have h := (c6_context_shift_discards_and_shifts 0 6 2 [0, 1, 2, 3, 4, 5]).2 (by decide)
    rw [h]
    decide

/-- Truncating division toward zero by 2 twice is truncating division
by 4 on nonnegative operands. -/
theorem tdiv_two_tdiv_two (d : Int) (hd : 0 ≤ d) : (d.tdiv 2).tdiv 2 = d.tdiv 4 := by
  obtain ⟨n, rfl⟩ := Int.eq_ofNat_of_zero_le hd
  show Int.ofNat (n / 2 / 2) = Int.ofNat (n / 4)
  rw [Nat.div_div_eq_div_mul]

/-- Truncating division by 2 of a negative dividend is nonpositive. -/
theorem tdiv_two_nonpos_of_neg (d : Int) (h : d < 0) : d.tdiv 2 ≤ 0 := by
  cases d with
  | ofNat n => exact absurd h (Int.natCast_nonneg n).not_lt
  | negSucc m =>
      show -(Int.ofNat ((m + 1) / 2)) ≤ 0
      exact neg_nonpos.mpr (Int.natCast_nonneg _)

/-- Truncating division of a nonnegative dividend by a positive divisor
is nonnegative. -/
theorem tdiv_nonneg_of_nonneg (d e : Nat) : 0 ≤ ((d : Int)).tdiv ((e : Int)) := by
  show (0 : Int) ≤ Int.ofNat (d / e)
  exact Int.natCast_nonneg _

/-- C7: with partial cache deletion enabled and nonnegative window
values, strategy lru removes the positions from 0 up to n_past / 4,
strategy fifo removes the positions from n_past - n_past / 4 up to
n_past, strategy smart removes the middle slice of length
(n_past - n_keep) / 2 starting at n_keep + (n_past - n_keep) / 4, and
any other strategy string returns invalid_argument and removes
nothing (divisions truncate toward zero). -/
theorem c7_partial_cache_strategies (n_keep_tokens n_past : Int) (cache : List Int)
    (hpast : 0 ≤ n_past) :
    clear_partial_kv_cache true n_keep_tokens n_past "lru" cache =
      (.success, seq_rm 0 (n_past.tdiv 4) cache) ∧
    clear_partial_kv_cache true n_keep_tokens n_past "fifo" cache =
      (.success, seq_rm (n_past - n_past.tdiv 4) n_past cache) ∧
    clear_partial_kv_cache true n_keep_tokens n_past "smart" cache =
      (.success,
       seq_rm (n_keep_tokens + (n_past - n_keep_tokens).tdiv 4)
         (n_keep_tokens + (n_past - n_keep_tokens).tdiv 4 + (n_past - n_keep_tokens).tdiv 2)
         cache) ∧
    (∀ s : String, s ≠ "lru" → s ≠ "fifo" → s ≠ "smart" →
      clear_partial_kv_cache true n_keep_tokens n_past s cache =
        (.invalid_argument, cache)) := by
  obtain ⟨np, rfl⟩ := Int.eq_ofNat_of_zero_le hpast
  refine ⟨?_, ?_, ?_, ?_⟩
  · by_cases h : 0 < ((np : Int)).tdiv 4
    · simp [clear_partial_kv_cache, h]
    · have h0 : ((np : Int)).tdiv 4 = 0 :=
        le_antisymm (by omega) (tdiv_nonneg_of_nonneg np 4)
      simp [clear_partial_kv_cache, h, h0, seq_rm_of_le 0 0 le_rfl]
  · by_cases h : 0 < ((np : Int)).tdiv 4
    · simp [clear_partial_kv_cache, h]
    · have h0 : ((np : Int)).tdiv 4 = 0 :=
        le_antisymm (by omega) (tdiv_nonneg_of_nonneg np 4)
      simp [clear_partial_kv_cache, h, h0,
        seq_rm_of_le ((np : Int)) ((np : Int)) le_rfl]
  · by_cases h : 0 < ((np : Int) - n_keep_tokens).tdiv 2
    · have hd : 0 ≤ (np : Int) - n_keep_tokens := by
        by_contra hneg
        have := tdiv_two_nonpos_of_neg ((np : Int) - n_keep_tokens) (by omega)
        omega
      simp only [clear_partial_kv_cache, Bool.true_eq_false, if_false, if_pos h,
        String.reduceEq, ite_false, ite_true]
      rw [tdiv_two_tdiv_two _ hd]
    · have hle : ((np : Int) - n_keep_tokens).tdiv 2 ≤ 0 := by omega
      simp [clear_partial_kv_cache, h,
        seq_rm_of_le _ _ (by omega :
          n_keep_tokens + ((np : Int) - n_keep_tokens).tdiv 4 +
              ((np : Int) - n_keep_tokens).tdiv 2 ≤
            n_keep_tokens + ((np : Int) - n_keep_tokens).tdiv 4)]
  · intro s h1 h2 h3
    simp [clear_partial_kv_cache, h1, h2, h3]

/-- Witness for c7_partial_cache_strategies at the specification's
example: n_keep_tokens = 64 and n_past = 1000 make the smart strategy
remove the slice from 298 of length 468, so positions 298, 500 and 765
vanish while 0, 100, 297, 766 and 999 survive; a different strategy
string is rejected. -/
theorem c7_partial_cache_witness :
    (0 : Int) ≤ 1000 ∧
    clear_partial_kv_cache true 64 1000 "smart" [0, 100, 297, 298, 500, 765, 766, 999] =
      (.success, [0, 100, 297, 766, 999]) ∧
    clear_partial_kv_cache true 64 1000 "oldest" [0, 100] = (.invalid_argument, [0, 100]) := by
  refine ⟨by decide, ?_, ?_⟩
  · have h := (c7_partial_cache_strategies 64 1000 [0, 100, 297, 298, 500, 765, 766, 999]
      (by decide)).2.2.1
    rw [h]
    decide
  · exact (c7_partial_cache_strategies 64 1000 [0, 100] (by decide)).2.2.2
      "oldest" (by decide) (by decide) (by decide)

/-- C8 (amended): when the assigned sampling.penalty_last_n (or
dry_penalty_last_n) is below -1, parse_config_to_params aborts and
returns the params exactly as assigned so far — the offending parsed
value included, with defaults surviving only for keys the JSON did not
set and with the sentinel resolution and dry_base validation skipped;
otherwise the -1 sentinels resolve to n_ctx, and dry_base below 1.0
resets to 1.75 while other values survive. -/
theorem c8_config_validation (cfg : ParsedConfig) :
    ((apply_parsed_config cfg).sampling.penalty_last_n < -1 →
      parse_config_to_params cfg = apply_parsed_config cfg) ∧
    (¬ (apply_parsed_config cfg).sampling.penalty_last_n < -1 →
      (apply_parsed_config cfg).sampling.dry_penalty_last_n < -1 →
      parse_config_to_params cfg = apply_parsed_config cfg) ∧
    (¬ (apply_parsed_config cfg).sampling.penalty_last_n < -1 →
      ¬ (apply_parsed_config cfg).sampling.dry_penalty_last_n < -1 →
      ((apply_parsed_config cfg).sampling.penalty_last_n = -1 →
        (parse_config_to_params cfg).sampling.penalty_last_n =
          (apply_parsed_config cfg).n_ctx) ∧
      ((apply_parsed_config cfg).sampling.dry_penalty_last_n = -1 →
        (parse_config_to_params cfg).sampling.dry_penalty_last_n =
          (apply_parsed_config cfg).n_ctx) ∧
      ((apply_parsed_config cfg).sampling.dry_base < 1 →
        (parse_config_to_params cfg).sampling.dry_base = 1.75) ∧
      (¬ (apply_parsed_config cfg).sampling.dry_base < 1 →
        (parse_config_to_params cfg).sampling.dry_base =
          (apply_parsed_config cfg).sampling.dry_base)) := by
  refine ⟨?_, ?_, ?_⟩
  · intro h
    simp [parse_config_to_params, validate_params, h]
  · intro h1 h2
    simp [parse_config_to_params, validate_params, h1, h2]
  · intro h1 h2
    refine ⟨?_, ?_, ?_, ?_⟩ <;> intro h3 <;>
      simp only [parse_config_to_params, validate_params, if_neg h1, if_neg h2] <;>
      split_ifs <;> simp_all

/-- Witness for c8_config_validation: the aborting config keeps its
invalid -5 and unvalidated dry_base 1/2; a config without a sampling
section resolves the -1 sentinel to the parsed n_ctx 4096; the
low-dry_base config is reset to 1.75. -/
theorem c8_config_validation_witness :
    parse_config_to_params c8_bad_cfg = apply_parsed_config c8_bad_cfg ∧
    (parse_config_to_params { ctx_size := some 4096, sampling := none }).sampling.penalty_last_n =
      4096 ∧
    (parse_config_to_params c8_low_dry_cfg).sampling.dry_base = 1.75 := by
  refine ⟨?_, ?_, ?_⟩
  · exact (c8_config_validation c8_bad_cfg).1 (by decide)
  · have h := ((c8_config_validation { ctx_size := some 4096, sampling := none }).2.2
      (by decide) (by decide)).1 (by decide)
    rw [h]
    decide
  · exact ((c8_config_validation c8_low_dry_cfg).2.2 (by decide) (by decide)).2.2.1
      (by norm_num [apply_parsed_config, c8_low_dry_cfg, default_model_params])

/-- C8 counterexample: parsing a config whose sampling.penalty_last_n
is -5 aborts, but the resulting params hold the invalid -5 itself and
the unvalidated parsed dry_base 1/2 — not the prior default values -1
and 1.75. -/
theorem c8_abort_keeps_invalid_value :
    default_model_params.sampling.penalty_last_n = -1 ∧
    default_model_params.sampling.dry_base = 1.75 ∧
    (parse_config_to_params c8_bad_cfg).sampling.penalty_last_n = -5 ∧
    (parse_config_to_params c8_bad_cfg).sampling.dry_base = 1 / 2 := by
  exact ⟨rfl, rfl, by decide, rfl⟩

/-- C9: for a handle absent from the session map (and a non-null
backend, engine context and prompt) run_inference returns the success
code with the literal response text written to the output tensor,
not an error code. -/
theorem c9_invalid_session_reports_success (engine : SessionInfo → String → String)
    (ctx : ChatCtx) (exec_ctx : Nat) (prompt : String) (m : CommonParams)
    (hm : ctx.loaded_model = some m)
    (hfind : ctx.sessions.find? (fun s => s.1 = exec_ctx) = none) :
    run_inference engine ctx exec_ctx (some prompt) =
      (.success, some "Error: Invalid session") := by
  simp [run_inference, run_inference_for_session_with_params, find_session, hm, hfind]

/-- Witness for c9_invalid_session_reports_success: the demo backend
with no sessions answers handle 42 with success and the error text. -/
theorem c9_invalid_session_witness :
    demo_ctx.loaded_model = some demo_params ∧
    run_inference (fun _ input => input) demo_ctx 42 (some "hi") =
      (.success, some "Error: Invalid session") := by
  exact ⟨rfl, c9_invalid_session_reports_success (fun _ input => input) demo_ctx 42 "hi"
    demo_params rfl rfl⟩

end WasiNnBackend
